import Mathlib

/-!
Verification of the tingbok SKOS lookup service (`src/tingbok/services/skos.py`).

The Python module is shallowly embedded: pure functions become Lean functions;
filesystem state (the positive concept cache and the consolidated not-found
cache) becomes an explicit `CacheState` threaded through the operations;
upstream HTTP calls become an explicit environment (`UpstreamEnv`) recording,
for each query, the outcome of the HTTP exchange (timeout, HTTP error, or a
response body that either parses to a typed shape or does not parse).
Timestamps are integers (Python uses floats; only ordering and differences
against integer TTLs matter).  Cache files are keyed by the cache key string:
`_get_cache_path` is a pure deterministic injection of the key into a file
name, so key-indexed maps model the flat cache directory.
-/

namespace Tingbok

/-- Cache TTL: `CACHE_TTL_SECONDS = 60 * 60 * 24 * 60` (60 days). -/
def CACHE_TTL_SECONDS : Int := 60 * 60 * 24 * 60

/-- Default `_max_depth` of `build_hierarchy_paths`. -/
def MAX_DEPTH : Nat := 15

/-- Python `dict.get(key)` over an association list (first binding wins,
matching the insert-by-prepend convention used below). -/
def dict_get {α : Type} (k : String) : List (String × α) → Option α
  | [] => none
  | (k2, v) :: rest => if k2 = k then some v else dict_get k rest

/-- Python `str.lower()` (case folding), written structurally over the
character list so that concrete instances evaluate. -/
def py_lower (s : String) : String := ⟨s.data.map Char.toLower⟩

/-- Python `str.replace(old, new)` for a single-character pattern, as used by
`_normalize_label`. -/
def py_replace_char (s : String) (old new : Char) : String :=
  ⟨s.data.map (fun c => if c = old then new else c)⟩

/-- An entry of a concept record's `broader` list: cache files store either
`{"uri": ..., "label": ...}` dicts (newer format) or plain URI strings
(older format); `build_hierarchy_paths` handles both. -/
inductive BroaderItem where
  | pair (uri : String) (label : String)
  | plain (s : String)
deriving DecidableEq, Repr

/-- The concept record produced by the upstream adapters and stored in the
positive cache.  `uri = ""` models a missing, `None`, or empty `"uri"` value
(only truthiness of `uri` is ever consulted); likewise for `prefLabel`. -/
structure ConceptRecord where
  uri : String
  prefLabel : String
  source : String
  broader : List BroaderItem
  description : Option String
deriving DecidableEq, Repr

/-- A positive-cache file: the record plus the `_cached_at` stamp written by
`_save_to_cache`. -/
structure CachedConcept where
  record : ConceptRecord
  cachedAt : Int
deriving DecidableEq, Repr

/-- The mutable filesystem state seen by the service: the positive concept
cache (key ↦ cached record, i.e. the `<safe>_<hash16>.json` files) and the
consolidated not-found cache (`_not_found.json`: key ↦ `cached_at`). -/
structure CacheState where
  positive : List (String × CachedConcept)
  negative : List (String × Int)
deriving DecidableEq, Repr

/-- Model of `_load_from_cache(cache_path, ttl)`: return the cached payload iff the
file exists and `time.time() - data["_cached_at"] <= ttl`. -/
def load_from_cache (positive : List (String × CachedConcept)) (key : String)
    (now ttl : Int) : Option CachedConcept :=
  match dict_get key positive with
  | none => none
  | some c => if now - c.cachedAt > ttl then none else some c

/-- Model of `_save_to_cache(cache_path, data)`: write the record with a fresh stamp
(overwriting any previous file for the same key). -/
def save_to_cache (positive : List (String × CachedConcept)) (key : String)
    (r : ConceptRecord) (now : Int) : List (String × CachedConcept) :=
  (key, ⟨r, now⟩) :: positive

/-- Model of `_is_in_not_found_cache(cache_dir, key, ttl)`: true iff `entries[key]`
exists and `time.time() - entry["cached_at"] <= ttl`. -/
def is_in_not_found_cache (negative : List (String × Int)) (key : String)
    (now ttl : Int) : Bool :=
  match dict_get key negative with
  | none => false
  | some w => now - w ≤ ttl

/-- Model of `_add_to_not_found_cache(cache_dir, key)`: read-modify-write of the
consolidated file, setting `entries[key] = {"cached_at": now}`. -/
def add_to_not_found_cache (negative : List (String × Int)) (key : String)
    (now : Int) : List (String × Int) :=
  (key, now) :: negative

/-- Outcome of one upstream HTTP exchange: a timeout (`httpx.TimeoutException`),
any other `httpx.HTTPError` (connection error or a 4xx/5xx raised by
`raise_for_status`), or a 2xx response whose body either parses into the typed
shape (`ok (some _)`) or is not valid JSON (`ok none`, i.e. `_parse_json`
returned `None`). -/
inductive HttpResult (α : Type) where
  | timeout
  | httpError
  | ok (parsed : Option α)
deriving DecidableEq

/-- One entry of AGROVOC's `.results[]`: the fields `_lookup_agrovoc` reads.
`prefLabel = none` models a missing key (`.get("prefLabel", default)`);
`altLabel` collapses the missing and non-list cases to `[]` exactly as the
`isinstance(alts, list)` guard does. -/
structure AgrovocResult where
  uri : String
  prefLabel : Option String
  altLabel : List String
deriving DecidableEq

/-- The parsed AGROVOC search response: `data.get("results", [])`. -/
structure AgrovocResponse where
  results : List AgrovocResult
deriving DecidableEq

/-- A JSON value that is either a plain string or a list of strings, as the
DBpedia adapter's `isinstance` guards distinguish for `label`, `resource`
and `comment`. -/
inductive StrOrList where
  | str (s : String)
  | list (l : List String)
deriving DecidableEq

/-- One entry of DBpedia's `.docs[]` (defaults `[]` model missing keys). -/
structure DbpediaDoc where
  label : StrOrList
  resource : StrOrList
  comment : StrOrList
deriving DecidableEq

/-- The parsed DBpedia search response: `data.get("docs", [])`. -/
structure DbpediaResponse where
  docs : List DbpediaDoc
deriving DecidableEq

/-- One entry of Wikidata's `.search[]`: `label = none` models a missing key
(it defaults to `""` during matching but to the query label when building the
record). -/
structure WikidataSearchItem where
  label : Option String
  id : String
  description : Option String
deriving DecidableEq

/-- The parsed Wikidata `wbsearchentities` response: `data.get("search", [])`. -/
structure WikidataResponse where
  search : List WikidataSearchItem
deriving DecidableEq

/-- The upstream HTTP world: for each source, the outcome of the search call
as a function of `(label, lang)`, and the broader list computed by the
corresponding `_get_broader_*` helper as a function of the concept URI (or
QID for Wikidata) and `lang`.  The broader helpers swallow their own HTTP
failures and return `[]`, so a plain function models them. -/
structure UpstreamEnv where
  agrovoc_search : String → String → HttpResult AgrovocResponse
  agrovoc_broader : String → String → List BroaderItem
  dbpedia_search : String → String → HttpResult DbpediaResponse
  dbpedia_broader : String → String → List BroaderItem
  wikidata_search : String → String → HttpResult WikidataResponse
  wikidata_broader : String → String → List BroaderItem

/-- The best-match loop of `_lookup_agrovoc`: first result whose `prefLabel`
equals the query case-insensitively or whose `altLabel` list contains it
case-insensitively. -/
def agrovoc_find_match (label_lower : String) :
    List AgrovocResult → Option AgrovocResult
  | [] => none
  | r :: rs =>
    if py_lower (r.prefLabel.getD "") = label_lower
        ∨ label_lower ∈ r.altLabel.map py_lower
      then some r
      else agrovoc_find_match label_lower rs

/-- Model of `_lookup_agrovoc(label, lang)`. -/
def lookup_agrovoc (env : UpstreamEnv) (label lang : String) :
    Option ConceptRecord × Bool :=
  match env.agrovoc_search label lang with
  | .timeout => (none, true)
  | .httpError => (none, true)
  | .ok none => (none, false)
  | .ok (some data) =>
    match data.results with
    | [] => (none, false)
    | r :: rs =>
      let best := (agrovoc_find_match (py_lower label) (r :: rs)).getD r
      if best.uri = "" then (none, false)
      else
        (some { uri := best.uri, prefLabel := best.prefLabel.getD label,
                source := "agrovoc",
                broader := env.agrovoc_broader best.uri lang,
                description := none }, false)

/-- Python coercion used in `_lookup_dbpedia`:
`labels = raw_labels if isinstance(raw_labels, list) else [raw_labels]`. -/
def str_or_list_to_list : StrOrList → List String
  | .str s => [s]
  | .list l => l

/-- The best-match loop of `_lookup_dbpedia`: first doc one of whose labels
equals the query case-insensitively. -/
def dbpedia_find_match (label_lower : String) :
    List DbpediaDoc → Option DbpediaDoc
  | [] => none
  | d :: ds =>
    if (str_or_list_to_list d.label).any (fun l => py_lower l = label_lower)
      then some d
      else dbpedia_find_match label_lower ds

/-- The URI extraction `uri = resource[0] if isinstance(resource, list) and resource else
(resource if isinstance(resource, str) else "")`. -/
def dbpedia_resource_uri : StrOrList → String
  | .list (x :: _) => x
  | .list [] => ""
  | .str s => s

/-- The label extraction `pref_label = raw_labels[0] if isinstance(raw_labels, list) and raw_labels
else str(raw_labels)` (Python `str([])` is the literal `"[]"`). -/
def dbpedia_pref_label : StrOrList → String
  | .list (x :: _) => x
  | .list [] => "[]"
  | .str s => s

/-- The description extraction `description = comment[0] if isinstance(comment, list) and comment else
(comment or None)`. -/
def dbpedia_description : StrOrList → Option String
  | .list (x :: _) => some x
  | .list [] => none
  | .str s => if s = "" then none else some s

/-- Model of `_lookup_dbpedia(label, lang)`. -/
def lookup_dbpedia (env : UpstreamEnv) (label lang : String) :
    Option ConceptRecord × Bool :=
  match env.dbpedia_search label lang with
  | .timeout => (none, true)
  | .httpError => (none, true)
  | .ok none => (none, false)
  | .ok (some data) =>
    match data.docs with
    | [] => (none, false)
    | d :: ds =>
      let best := (dbpedia_find_match (py_lower label) (d :: ds)).getD d
      let uri := dbpedia_resource_uri best.resource
      if uri = "" then (none, false)
      else
        (some { uri := uri, prefLabel := dbpedia_pref_label best.label,
                source := "dbpedia",
                broader := env.dbpedia_broader uri lang,
                description := dbpedia_description best.comment }, false)

/-- The best-match step of `_lookup_wikidata`:
`next((r for r in results if r.get("label", "").lower() == label_lower),
results[0])`. -/
def wikidata_find_match (label_lower : String)
    (l : List WikidataSearchItem) : Option WikidataSearchItem :=
  l.find? (fun r => py_lower (r.label.getD "") = label_lower)

/-- Model of `_lookup_wikidata(label, lang)`. -/
def lookup_wikidata (env : UpstreamEnv) (label lang : String) :
    Option ConceptRecord × Bool :=
  match env.wikidata_search label lang with
  | .timeout => (none, true)
  | .httpError => (none, true)
  | .ok none => (none, false)
  | .ok (some data) =>
    match data.search with
    | [] => (none, false)
    | r :: rs =>
      let best := (wikidata_find_match (py_lower label) (r :: rs)).getD r
      if best.id = "" then (none, false)
      else
        (some { uri := "http://www.wikidata.org/entity/" ++ best.id,
                prefLabel := best.label.getD label,
                source := "wikidata",
                broader := env.wikidata_broader best.id lang,
                description := best.description }, false)

/-- Model of `_upstream_lookup(label, lang, source)`: dispatch on the source string;
an unknown source yields `(None, True)`. -/
def upstream_lookup (env : UpstreamEnv) (label lang source : String) :
    Option ConceptRecord × Bool :=
  if source = "agrovoc" then lookup_agrovoc env label lang
  else if source = "dbpedia" then lookup_dbpedia env label lang
  else if source = "wikidata" then lookup_wikidata env label lang
  else (none, true)

/-- The cache key computed by `lookup_concept`:
`f"concept:{source}:{lang}:{label.lower()}"`. -/
def concept_cache_key (label lang source : String) : String :=
  "concept:" ++ source ++ ":" ++ lang ++ ":" ++ py_lower label

/-- The part of `lookup_concept` after the positive-cache check fails:
negative-cache check, upstream dispatch, write-back.  The third component
counts `_upstream_lookup` invocations. -/
def lookup_concept_uncached (env : UpstreamEnv) (label lang source : String)
    (st : CacheState) (now : Int) (cache_key : String) :
    Option ConceptRecord × CacheState × Nat :=
  if is_in_not_found_cache st.negative cache_key now CACHE_TTL_SECONDS then
    (none, st, 0)
  else
    let res := upstream_lookup env label lang source
    if res.2 then (res.1, st, 1)
    else
      match res.1 with
      | some c =>
        (some c, { st with positive := save_to_cache st.positive cache_key c now }, 1)
      | none =>
        (none, { st with negative := add_to_not_found_cache st.negative cache_key now }, 1)

/-- Model of `lookup_concept(label, lang, source, cache_dir)`, returning the result,
the cache state after the call, and the number of upstream calls made. -/
def lookup_concept (env : UpstreamEnv) (label lang source : String)
    (st : CacheState) (now : Int) : Option ConceptRecord × CacheState × Nat :=
  match load_from_cache st.positive (concept_cache_key label lang source) now
      CACHE_TTL_SECONDS with
  | some c =>
    if c.record.uri ≠ "" then (some c.record, st, 0)
    else lookup_concept_uncached env label lang source st now
      (concept_cache_key label lang source)
  | none => lookup_concept_uncached env label lang source st now
      (concept_cache_key label lang source)

/-- The empty cache directory. -/
def empty_cache : CacheState := ⟨[], []⟩

/-- An upstream world in which every search call times out. -/
def env_timeout : UpstreamEnv where
  agrovoc_search := fun _ _ => .timeout
  agrovoc_broader := fun _ _ => []
  dbpedia_search := fun _ _ => .timeout
  dbpedia_broader := fun _ _ => []
  wikidata_search := fun _ _ => .timeout
  wikidata_broader := fun _ _ => []

/-- An upstream world in which every search call yields a 2xx response whose
body is not parseable JSON (`_parse_json` returns `None`). -/
def env_nonjson : UpstreamEnv where
  agrovoc_search := fun _ _ => .ok none
  agrovoc_broader := fun _ _ => []
  dbpedia_search := fun _ _ => .ok none
  dbpedia_broader := fun _ _ => []
  wikidata_search := fun _ _ => .ok none
  wikidata_broader := fun _ _ => []

/-- The `AGROVOC_ROOT_MAPPING` table: verbose AGROVOC root labels mapped to concise
path segments. -/
def AGROVOC_ROOT_MAPPING : List (String × String) :=
  [("products", "food"), ("plant products", "food"), ("animal products", "food"),
   ("processed products", "food"), ("aquatic products", "food"),
   ("equipment", "tools"), ("materials", "materials"),
   ("chemicals", "chemicals"), ("organisms", "organisms")]

/-- The per-source root mapping table, as read by
`ROOT_MAPPING.get(source, {})`: AGROVOC has the table above, `dbpedia` and
`wikidata` map to the empty table, and so does every unknown source. -/
def ROOT_MAPPING (source : String) : List (String × String) :=
  if source = "agrovoc" then AGROVOC_ROOT_MAPPING else []

/-- Model of `_normalize_label(label)`:
`label.lower().replace(" ", "_").replace("-", "_")`. -/
def normalize_label (label : String) : String :=
  py_replace_char (py_replace_char (py_lower label) ' ' '_') '-' '_'

/-- The broader label extracted inside the recursion loop:
`broader_item.get("label", "")` for dicts, `str(broader_item)` otherwise. -/
def broader_item_label : BroaderItem → String
  | .pair _ label => label
  | .plain s => s

/-- Python `"/".join(segments)`. -/
def join_path : List String → String
  | [] => ""
  | [s] => s
  | s :: rest => s ++ "/" ++ join_path rest

/-- Python `concept_id in uri_map`. -/
def dict_contains (m : List (String × String)) (k : String) : Bool :=
  m.any (fun p => p.1 == k)

/-- Python `uri_map[k] = v`: replace in place when present, append
otherwise (insertion order preserved). -/
def dict_set (m : List (String × String)) (k v : String) :
    List (String × String) :=
  if dict_contains m k then m.map (fun p => if p.1 = k then (p.1, v) else p)
  else m ++ [(k, v)]

/-- Python `all_uri_maps.update(sub_uri_map)`. -/
def dict_update (m other : List (String × String)) : List (String × String) :=
  other.foldl (fun acc p => dict_set acc p.1 p.2) m

/-- The uri_map construction loop shared by the root and the partial-path
branches of `build_hierarchy_paths`:
`for i in range(start_idx, len(new_path)):` add
`"/".join(new_path[:i+1]) ↦ new_uris[i]` when the id is new and the URI is
non-empty. -/
def build_uri_map (new_path new_uris : List String) (start_idx : Nat) :
    List (String × String) :=
  (List.range' start_idx (new_path.length - start_idx)).foldl
    (fun m i =>
      let concept_id := join_path (new_path.take (i + 1))
      if dict_contains m concept_id then m
      else if new_uris.getD i "" ≠ "" then m ++ [(concept_id, new_uris.getD i "")]
      else m) []

/-- The body of the `for broader_item in broader:` loop of
`build_hierarchy_paths`: skip entries with an empty label, otherwise recurse
(`recurse` is the recursive call with the updated path state) and, when the
sub-walk reports `found`, accumulate its paths and uri_map.  The accumulator
carries `(all_paths, all_uri_maps)`, the cache state, and the running count
of `lookup_concept` invocations. -/
def hierarchy_step
    (recurse : String → CacheState →
      (List String × Bool × List (String × String)) × CacheState × Nat)
    (acc : (List String × List (String × String)) × CacheState × Nat)
    (bi : BroaderItem) :
    (List String × List (String × String)) × CacheState × Nat :=
  if broader_item_label bi = "" then acc
  else
    match recurse (broader_item_label bi) acc.2.1 with
    | ((sub_paths, sub_found, sub_map), st2, n2) =>
      if sub_found then
        ((acc.1.1 ++ sub_paths, dict_update acc.1.2 sub_map), st2, acc.2.2 + n2)
      else (acc.1, st2, acc.2.2 + n2)

/-- The body of `build_hierarchy_paths`, with the depth accounting replaced
by the equivalent fuel `_max_depth - _depth` (the entry check
`_depth >= _max_depth` is exactly `fuel = 0`, and each recursive call passes
`_depth + 1`, i.e. `fuel - 1`).  Returns the `(paths, found, uri_map)`
triple, the cache state after all lookups, and the number of
`lookup_concept` invocations performed in the subtree. -/
def build_hierarchy_aux (env : UpstreamEnv) (lang source : String) (now : Int) :
    Nat → String → List String → List String → List String → CacheState →
    (List String × Bool × List (String × String)) × CacheState × Nat
  | 0, _, _, _, _, st => (([], false, []), st, 0)
  | fuel + 1, label, current_path, current_uris, visited_uris, st =>
    match lookup_concept env label lang source st now with
    | (none, st1, _) => (([], false, []), st1, 1)
    | (some concept, st1, _) =>
      let uri := concept.uri
      if uri ≠ "" ∧ uri ∈ visited_uris then
        -- Cycle detected — stop recursion here
        (([], true, []), st1, 1)
      else
        let new_visited := if uri ≠ "" then uri :: visited_uris else visited_uris
        let pref_label := if concept.prefLabel = "" then label else concept.prefLabel
        let new_path := normalize_label pref_label :: current_path
        let new_uris := uri :: current_uris
        match concept.broader with
        | [] =>
          -- Root concept: apply the root mapping and emit the path
          match dict_get (py_lower pref_label) (ROOT_MAPPING source) with
          | some mapped =>
            (([join_path (mapped :: current_path)], true,
              build_uri_map (mapped :: current_path) new_uris 1), st1, 1)
          | none =>
            (([join_path new_path], true, build_uri_map new_path new_uris 0),
             st1, 1)
        | b :: bs =>
          let folded := (b :: bs).foldl
            (hierarchy_step (fun l s => build_hierarchy_aux env lang source now
              fuel l new_path new_uris new_visited s))
            (([], []), st1, 0)
          match folded with
          | ((all_paths, all_maps), st2, n) =>
            if all_paths = [] then
              -- No broader concept resolved — emit a partial path
              (([join_path new_path], uri != "",
                build_uri_map new_path new_uris 0), st2, n + 1)
            else ((all_paths, true, all_maps), st2, n + 1)

/-- Model of `build_hierarchy_paths(label, lang, source, cache_dir, _current_path,
_current_uris, _visited_uris, _depth, _max_depth)`. -/
def build_hierarchy_paths (env : UpstreamEnv) (label lang source : String)
    (st : CacheState) (now : Int)
    (current_path current_uris visited_uris : List String)
    (depth max_depth : Nat) :
    (List String × Bool × List (String × String)) × CacheState × Nat :=
  build_hierarchy_aux env lang source now (max_depth - depth) label
    current_path current_uris visited_uris st

/-- The cached concept used in the end-to-end cache-hit scenario. -/
def potato_record : ConceptRecord :=
  ⟨"http://aims.fao.org/aos/agrovoc/c_13551", "potatoes", "agrovoc",
   [.pair "http://aims.fao.org/aos/agrovoc/c_8079" "vegetables"], none⟩

/-- A cache directory holding a fresh `potatoes` record. -/
def state_with_potato : CacheState :=
  ⟨[("concept:agrovoc:en:potatoes", ⟨potato_record, 0⟩)], []⟩

/-- A search candidate whose label matches the query but which has no URI. -/
def agrovoc_no_uri : AgrovocResult := ⟨"", some "potato", []⟩

/-- A later search candidate that does carry a usable URI. -/
def agrovoc_with_uri : AgrovocResult :=
  ⟨"http://aims.fao.org/aos/agrovoc/c_13551", some "potatoes", ["potato"]⟩

/-- An upstream world whose AGROVOC search returns a URI-less best match
followed by a candidate with a URI. -/
def env_two_candidates : UpstreamEnv where
  agrovoc_search := fun _ _ => .ok (some ⟨[agrovoc_no_uri, agrovoc_with_uri]⟩)
  agrovoc_broader := fun _ _ => []
  dbpedia_search := fun _ _ => .timeout
  dbpedia_broader := fun _ _ => []
  wikidata_search := fun _ _ => .timeout
  wikidata_broader := fun _ _ => []

/-- A root concept whose label is remapped by `AGROVOC_ROOT_MAPPING`. -/
def plant_products_record : ConceptRecord :=
  ⟨"http://x/plant_products", "Plant products", "agrovoc", [], none⟩

/-- A cache directory holding the `Plant products` root. -/
def state_with_plant_products : CacheState :=
  ⟨[("concept:agrovoc:en:plant products", ⟨plant_products_record, 0⟩)], []⟩

/-- A concept all of whose broader entries carry empty labels (one in each
of the two stored formats). -/
def orphan_record : ConceptRecord :=
  ⟨"http://x/orphan", "orphan thing", "agrovoc",
   [.pair "http://x/b" "", .plain ""], none⟩

/-- A cache directory holding the orphan concept. -/
def state_with_orphan : CacheState :=
  ⟨[("concept:agrovoc:en:orphan", ⟨orphan_record, 0⟩)], []⟩

/-- Every AGROVOC adapter outcome is either the transient failure
`(None, True)` or has `query_failed = False`. -/
theorem lookup_agrovoc_shape (env : UpstreamEnv) (label lang : String) :
    lookup_agrovoc env label lang = (none, true)
      ∨ (lookup_agrovoc env label lang).2 = false := by
  unfold lookup_agrovoc
  rcases env.agrovoc_search label lang with _ | _ | (_ | ⟨results⟩)
  · left; rfl
  · left; rfl
  · right; rfl
  · rcases results with _ | ⟨r, rs⟩
    · right; rfl
    · right; dsimp only; split <;> rfl

/-- Every DBpedia adapter outcome is either the transient failure
`(None, True)` or has `query_failed = False`. -/
theorem lookup_dbpedia_shape (env : UpstreamEnv) (label lang : String) :
    lookup_dbpedia env label lang = (none, true)
      ∨ (lookup_dbpedia env label lang).2 = false := by
  unfold lookup_dbpedia
  rcases env.dbpedia_search label lang with _ | _ | (_ | ⟨docs⟩)
  · left; rfl
  · left; rfl
  · right; rfl
  · rcases docs with _ | ⟨d, ds⟩
    · right; rfl
    · right; dsimp only; split <;> rfl

/-- Every Wikidata adapter outcome is either the transient failure
`(None, True)` or has `query_failed = False`. -/
theorem lookup_wikidata_shape (env : UpstreamEnv) (label lang : String) :
    lookup_wikidata env label lang = (none, true)
      ∨ (lookup_wikidata env label lang).2 = false := by
  unfold lookup_wikidata
  rcases env.wikidata_search label lang with _ | _ | (_ | ⟨items⟩)
  · left; rfl
  · left; rfl
  · right; rfl
  · rcases items with _ | ⟨r, rs⟩
    · right; rfl
    · right; dsimp only; split <;> rfl

/-- Whenever `_upstream_lookup` reports `query_failed = True`, the concept it
returns is `None`. -/
theorem upstream_lookup_failed_absent (env : UpstreamEnv)
    (label lang source : String)
    (h : (upstream_lookup env label lang source).2 = true) :
    (upstream_lookup env label lang source).1 = none := by
  unfold upstream_lookup at h ⊢
  split_ifs at h ⊢
  · rcases lookup_agrovoc_shape env label lang with he | he
    · rw [he]
    · rw [he] at h; cases h
  · rcases lookup_dbpedia_shape env label lang with he | he
    · rw [he]
    · rw [he] at h; cases h
  · rcases lookup_wikidata_shape env label lang with he | he
    · rw [he]
    · rw [he] at h; cases h
  · rfl

/-- When the upstream dispatch reports a transient failure, the
cache-missing part of `lookup_concept` returns absent and leaves the state
unchanged. -/
theorem lookup_concept_uncached_failed (env : UpstreamEnv)
    (label lang source : String) (st : CacheState) (now : Int) (key : String)
    (hfail : (upstream_lookup env label lang source).2 = true) :
    (lookup_concept_uncached env label lang source st now key).1 = none ∧
    (lookup_concept_uncached env label lang source st now key).2.1 = st := by
  unfold lookup_concept_uncached
  split
  · exact ⟨rfl, rfl⟩
  · dsimp only
    rw [if_pos hfail]
    exact ⟨upstream_lookup_failed_absent env label lang source hfail, rfl⟩

/-- C2: when the upstream adapter reports `transient_failure = True` (which
includes an unknown source) and the positive cache has no usable record for
the key, `lookup_concept` returns absent and leaves both caches exactly as
they were. -/
theorem lookup_transient_failure_writes_nothing (env : UpstreamEnv)
    (label lang source : String) (st : CacheState) (now : Int)
    (hpos : ∀ c, load_from_cache st.positive
        (concept_cache_key label lang source) now CACHE_TTL_SECONDS = some c →
        c.record.uri = "")
    (hfail : (upstream_lookup env label lang source).2 = true) :
    (lookup_concept env label lang source st now).1 = none ∧
    (lookup_concept env label lang source st now).2.1 = st := by
  have hu := lookup_concept_uncached_failed env label lang source st now
    (concept_cache_key label lang source) hfail
  unfold lookup_concept
  cases hl : load_from_cache st.positive
      (concept_cache_key label lang source) now CACHE_TTL_SECONDS with
  | none => exact hu
  | some c =>
    have hne : ¬ c.record.uri ≠ "" := by simp [hpos c hl]
    dsimp only
    rw [if_neg hne]
    exact hu

/-- Witness for C2: a timed-out AGROVOC lookup on an empty cache returns
absent and leaves the cache empty. -/
theorem lookup_transient_failure_writes_nothing_witness :
    (lookup_concept env_timeout "potato" "en" "agrovoc" empty_cache 0).1 = none ∧
    (lookup_concept env_timeout "potato" "en" "agrovoc" empty_cache 0).2.1
      = empty_cache :=
  lookup_transient_failure_writes_nothing env_timeout "potato" "en" "agrovoc"
    empty_cache 0
    (fun c h => by simp [load_from_cache, dict_get, empty_cache] at h)
    (by decide)

/-- C1 fails on the code: a 2xx AGROVOC response with a non-JSON body yields
`(None, False)` — not `(None, True)` as the claim states — and
`lookup_concept` therefore does add the key to the negative cache. -/
theorem nonjson_counterexample :
    env_nonjson.agrovoc_search "potato" "en" = .ok none ∧
    lookup_agrovoc env_nonjson "potato" "en" ≠ (none, true) ∧
    lookup_agrovoc env_nonjson "potato" "en" = (none, false) ∧
    dict_get (concept_cache_key "potato" "en" "agrovoc")
        (lookup_concept env_nonjson "potato" "en" "agrovoc" empty_cache 0).2.1.negative
      = some 0 := by
  refine ⟨rfl, by decide, rfl, by decide⟩

/-- C1 amended: an upstream search whose 2xx response body is not parseable
JSON is treated as an authoritative absence — the adapter returns
`(None, False)` — and consequently `lookup_concept` (when neither cache
short-circuits the call) adds the key to the negative cache. -/
theorem nonjson_is_authoritative_absence (env : UpstreamEnv)
    (label lang : String) (st : CacheState) (now : Int)
    (hbody : env.agrovoc_search label lang = .ok none)
    (hpos : ∀ c, load_from_cache st.positive
        (concept_cache_key label lang "agrovoc") now CACHE_TTL_SECONDS = some c →
        c.record.uri = "")
    (hneg : is_in_not_found_cache st.negative
        (concept_cache_key label lang "agrovoc") now CACHE_TTL_SECONDS = false) :
    lookup_agrovoc env label lang = (none, false) ∧
    lookup_concept env label lang "agrovoc" st now
      = (none,
         ⟨st.positive,
          add_to_not_found_cache st.negative
            (concept_cache_key label lang "agrovoc") now⟩, 1) := by
  have hadapter : lookup_agrovoc env label lang = (none, false) := by
    unfold lookup_agrovoc
    rw [hbody]
  have hdispatch : upstream_lookup env label lang "agrovoc" = (none, false) := by
    unfold upstream_lookup
    rw [if_pos rfl]
    exact hadapter
  refine ⟨hadapter, ?_⟩
  have huncached : lookup_concept_uncached env label lang "agrovoc" st now
      (concept_cache_key label lang "agrovoc")
      = (none,
         ⟨st.positive,
          add_to_not_found_cache st.negative
            (concept_cache_key label lang "agrovoc") now⟩, 1) := by
    unfold lookup_concept_uncached
    rw [if_neg (by simp [hneg])]
    simp only [hdispatch]
    rfl
  unfold lookup_concept
  cases hl : load_from_cache st.positive
      (concept_cache_key label lang "agrovoc") now CACHE_TTL_SECONDS with
  | none => exact huncached
  | some c =>
    have hne : ¬ c.record.uri ≠ "" := by simp [hpos c hl]
    dsimp only
    rw [if_neg hne]
    exact huncached

/-- Witness for the amended C1 at a concrete non-JSON world and empty cache. -/
theorem nonjson_is_authoritative_absence_witness :
    lookup_agrovoc env_nonjson "tomato" "en" = (none, false) ∧
    lookup_concept env_nonjson "tomato" "en" "agrovoc" empty_cache 0
      = (none,
         ⟨empty_cache.positive,
          add_to_not_found_cache empty_cache.negative
            (concept_cache_key "tomato" "en" "agrovoc") 0⟩, 1) :=
  nonjson_is_authoritative_absence env_nonjson "tomato" "en" empty_cache 0 rfl
    (fun c h => by simp [load_from_cache, dict_get, empty_cache] at h)
    (by decide)

/-- C4: saving a record and loading it back within the TTL returns the record
unchanged, with the `_cached_at` stamp set by the save. -/
theorem save_then_load_roundtrip (positive : List (String × CachedConcept))
    (key : String) (r : ConceptRecord) (tsave tload ttl : Int)
    (hfresh : tload - tsave ≤ ttl) :
    load_from_cache (save_to_cache positive key r tsave) key tload ttl
      = some ⟨r, tsave⟩ := by
  have h1 : dict_get key (save_to_cache positive key r tsave) = some ⟨r, tsave⟩ := by
    simp [save_to_cache, dict_get]
  simp only [load_from_cache, h1]
  rw [if_neg (by omega)]

/-- Witness for C4 at a concrete record, time 5 (saved at 3) and TTL 10. -/
theorem save_then_load_roundtrip_witness :
    load_from_cache
        (save_to_cache [] "concept:agrovoc:en:potatoes"
          ⟨"http://x/p", "potatoes", "agrovoc", [], none⟩ 3)
        "concept:agrovoc:en:potatoes" 5 10
      = some ⟨⟨"http://x/p", "potatoes", "agrovoc", [], none⟩, 3⟩ :=
  save_then_load_roundtrip [] "concept:agrovoc:en:potatoes"
    ⟨"http://x/p", "potatoes", "agrovoc", [], none⟩ 3 5 10 (by decide)

/-- C5: after `_add_to_not_found_cache(d, k)` at time `twrite`, the key is
reported as negatively cached at exactly the times `t` with
`t - twrite ≤ ttl`, and not once the TTL has elapsed. -/
theorem add_negative_then_is_negative (negative : List (String × Int))
    (key : String) (twrite t ttl : Int) :
    is_in_not_found_cache (add_to_not_found_cache negative key twrite) key t ttl
      = true ↔ t - twrite ≤ ttl := by
  simp [is_in_not_found_cache, add_to_not_found_cache, dict_get]

/-- C3 fails on the code: with a query-matching first candidate that has no
URI followed by a candidate that has one, the AGROVOC adapter returns
`(None, False)` instead of selecting the later candidate — URI-less
candidates are not skipped during selection. -/
theorem candidate_selection_counterexample :
    env_two_candidates.agrovoc_search "potato" "en"
      = .ok (some ⟨[agrovoc_no_uri, agrovoc_with_uri]⟩) ∧
    agrovoc_no_uri.uri = "" ∧
    agrovoc_with_uri.uri ≠ "" ∧
    lookup_agrovoc env_two_candidates "potato" "en" = (none, false) := by
  refine ⟨rfl, rfl, by decide, by decide⟩

/-- C3 amended: candidate selection ignores URIs entirely (label matching
with fallback to the first candidate); when the selected candidate lacks a
usable URI the result is `(absent, transient_failure = False)` — an
authoritative absence — even if another candidate carries a URI. -/
theorem selection_ignores_uri (env : UpstreamEnv) (label lang : String) :
    (∀ r rs, env.agrovoc_search label lang = .ok (some ⟨r :: rs⟩) →
      ((agrovoc_find_match (py_lower label) (r :: rs)).getD r).uri = "" →
      lookup_agrovoc env label lang = (none, false)) ∧
    (∀ d ds, env.dbpedia_search label lang = .ok (some ⟨d :: ds⟩) →
      dbpedia_resource_uri
        ((dbpedia_find_match (py_lower label) (d :: ds)).getD d).resource = "" →
      lookup_dbpedia env label lang = (none, false)) := by
  constructor
  · intro r rs hresp huri
    unfold lookup_agrovoc
    rw [hresp]
    dsimp only
    rw [if_pos huri]
  · intro d ds hresp huri
    unfold lookup_dbpedia
    rw [hresp]
    dsimp only
    rw [if_pos huri]

/-- Witness for the amended C3 at the two-candidate world. -/
theorem selection_ignores_uri_witness :
    lookup_agrovoc env_two_candidates "potato" "en" = (none, false) :=
  (selection_ignores_uri env_two_candidates "potato" "en").1 agrovoc_no_uri
    [agrovoc_with_uri] rfl (by decide)

/-- C6: a fresh positive-cache record with a non-empty `uri` is returned
as-is, with zero upstream calls and both caches untouched. -/
theorem cache_hit_no_upstream (env : UpstreamEnv) (label lang source : String)
    (st : CacheState) (now : Int) (c : CachedConcept)
    (hload : load_from_cache st.positive (concept_cache_key label lang source)
        now CACHE_TTL_SECONDS = some c)
    (huri : c.record.uri ≠ "") :
    lookup_concept env label lang source st now = (some c.record, st, 0) := by
  unfold lookup_concept
  rw [hload]
  dsimp only
  rw [if_pos huri]

/-- Witness for C6: the seeded `potatoes` record is served from cache. -/
theorem cache_hit_no_upstream_witness :
    lookup_concept env_timeout "potatoes" "en" "agrovoc" state_with_potato 0
      = (some potato_record, state_with_potato, 0) :=
  cache_hit_no_upstream env_timeout "potatoes" "en" "agrovoc" state_with_potato
    0 ⟨potato_record, 0⟩ (by decide) (by decide)

/-- A string with a non-empty prefix is non-empty. -/
theorem string_append_ne_empty (s t : String) (h : s ≠ "") : s ++ t ≠ "" := by
  intro he
  apply h
  rcases s with ⟨sd⟩
  rcases t with ⟨td⟩
  have hd : sd ++ td = ([] : List Char) := congrArg String.data he
  rcases List.append_eq_nil.mp hd with ⟨h1, _⟩
  exact congrArg String.mk h1

/-- A present AGROVOC search result always carries a non-empty URI. -/
theorem lookup_agrovoc_present_has_uri (env : UpstreamEnv)
    (label lang : String) (c : ConceptRecord)
    (h : (lookup_agrovoc env label lang).1 = some c) : c.uri ≠ "" := by
  unfold lookup_agrovoc at h
  rcases henv : env.agrovoc_search label lang with _ | _ | (_ | ⟨results⟩) <;>
      rw [henv] at h
  · simp at h
  · simp at h
  · simp at h
  · rcases results with _ | ⟨r, rs⟩
    · simp at h
    · dsimp only at h
      split at h
      · simp at h
      · rename_i hne
        injection h with h2
        subst h2
        exact hne

/-- A present DBpedia search result always carries a non-empty URI. -/
theorem lookup_dbpedia_present_has_uri (env : UpstreamEnv)
    (label lang : String) (c : ConceptRecord)
    (h : (lookup_dbpedia env label lang).1 = some c) : c.uri ≠ "" := by
  unfold lookup_dbpedia at h
  rcases henv : env.dbpedia_search label lang with _ | _ | (_ | ⟨docs⟩) <;>
      rw [henv] at h
  · simp at h
  · simp at h
  · simp at h
  · rcases docs with _ | ⟨d, ds⟩
    · simp at h
    · dsimp only at h
      split at h
      · simp at h
      · rename_i hne
        injection h with h2
        subst h2
        exact hne

/-- A present Wikidata search result always carries a non-empty URI. -/
theorem lookup_wikidata_present_has_uri (env : UpstreamEnv)
    (label lang : String) (c : ConceptRecord)
    (h : (lookup_wikidata env label lang).1 = some c) : c.uri ≠ "" := by
  unfold lookup_wikidata at h
  rcases henv : env.wikidata_search label lang with _ | _ | (_ | ⟨items⟩) <;>
      rw [henv] at h
  · simp at h
  · simp at h
  · simp at h
  · rcases items with _ | ⟨r, rs⟩
    · simp at h
    · dsimp only at h
      split at h
      · simp at h
      · injection h with h2
        subst h2
        exact string_append_ne_empty _ _ (by decide)

/-- A present `_upstream_lookup` result always carries a non-empty URI. -/
theorem upstream_lookup_present_has_uri (env : UpstreamEnv)
    (label lang source : String) (c : ConceptRecord)
    (h : (upstream_lookup env label lang source).1 = some c) : c.uri ≠ "" := by
  unfold upstream_lookup at h
  split_ifs at h
  · exact lookup_agrovoc_present_has_uri env label lang c h
  · exact lookup_dbpedia_present_has_uri env label lang c h
  · exact lookup_wikidata_present_has_uri env label lang c h

/-- A present result of the cache-missing path always carries a non-empty
URI. -/
theorem lookup_concept_uncached_present_has_uri (env : UpstreamEnv)
    (label lang source : String) (st : CacheState) (now : Int) (key : String)
    (c : ConceptRecord)
    (h : (lookup_concept_uncached env label lang source st now key).1 = some c) :
    c.uri ≠ "" := by
  unfold lookup_concept_uncached at h
  split at h
  · simp at h
  · dsimp only at h
    split at h
    · exact upstream_lookup_present_has_uri env label lang source c h
    · split at h
      · rename_i c1 heq
        injection h with h2
        subst h2
        exact upstream_lookup_present_has_uri env label lang source c1 heq
      · simp at h

/-- C9 (invariant): every non-absent result of `lookup_concept` has a
non-empty `uri` — the cache branch returns only records with a truthy `uri`,
and each adapter returns absent when the selected candidate lacks one. -/
theorem lookup_concept_present_has_uri (env : UpstreamEnv)
    (label lang source : String) (st : CacheState) (now : Int)
    (c : ConceptRecord)
    (h : (lookup_concept env label lang source st now).1 = some c) :
    c.uri ≠ "" := by
  unfold lookup_concept at h
  split at h
  · rename_i c1 heq
    split at h
    · rename_i hne
      injection h with h2
      subst h2
      exact hne
    · exact lookup_concept_uncached_present_has_uri env label lang source st
        now _ c h
  · exact lookup_concept_uncached_present_has_uri env label lang source st
      now _ c h

/-- Witness for C9 at the seeded cache-hit input. -/
theorem lookup_concept_present_has_uri_witness :
    (lookup_concept env_timeout "potatoes" "en" "agrovoc" state_with_potato 0).1
      = some potato_record ∧ potato_record.uri ≠ "" :=
  ⟨by decide, lookup_concept_present_has_uri env_timeout "potatoes" "en"
    "agrovoc" state_with_potato 0 potato_record (by decide)⟩

/-- C7: a `build_hierarchy_paths` frame entered at a recursion depth at or
beyond `MAX_DEPTH = 15` returns `([], False, {})` without resolving the
label: zero `lookup_concept` invocations and an untouched cache.  (Totality
of the embedding, which replays the `_depth`/`_max_depth` accounting as
structurally decreasing fuel, is the depth-bounded termination itself.) -/
theorem depth_cap_returns_empty (env : UpstreamEnv)
    (label lang source : String) (st : CacheState) (now : Int)
    (current_path current_uris visited_uris : List String) (depth : Nat)
    (hdepth : MAX_DEPTH ≤ depth) :
    build_hierarchy_paths env label lang source st now current_path
      current_uris visited_uris depth MAX_DEPTH = (([], false, []), st, 0) := by
  unfold build_hierarchy_paths
  have h0 : MAX_DEPTH - depth = 0 := by omega
  rw [h0]
  rfl

/-- Witness for C7: entering the 15th frame yields the empty failed result. -/
theorem depth_cap_returns_empty_witness :
    build_hierarchy_paths env_timeout "potatoes" "en" "agrovoc"
      state_with_potato 0 [] [] [] 15 MAX_DEPTH
      = (([], false, []), state_with_potato, 0) :=
  depth_cap_returns_empty env_timeout "potatoes" "en" "agrovoc"
    state_with_potato 0 [] [] [] 15 (by decide)

/-- C8: at a root concept (no broader entries), when the lowercased
`prefLabel` is a key of the per-source root table the first path segment is
replaced by the mapped value and the uri_map is built starting at index 1
(omitting the synthetic root key); when it is not a key, the uri_map starts
at index 0. -/
theorem root_mapping_replaces_first_segment (env : UpstreamEnv)
    (label lang source : String) (st : CacheState) (now : Int)
    (current_path current_uris visited_uris : List String)
    (depth max_depth : Nat) (c : ConceptRecord) (st1 : CacheState) (n : Nat)
    (hdepth : depth < max_depth)
    (hlk : lookup_concept env label lang source st now = (some c, st1, n))
    (hnc : ¬ (c.uri ≠ "" ∧ c.uri ∈ visited_uris))
    (hroot : c.broader = []) :
    (∀ mapped,
      dict_get (py_lower (if c.prefLabel = "" then label else c.prefLabel))
          (ROOT_MAPPING source) = some mapped →
      build_hierarchy_paths env label lang source st now current_path
          current_uris visited_uris depth max_depth
        = (([join_path (mapped :: current_path)], true,
            build_uri_map (mapped :: current_path) (c.uri :: current_uris) 1),
           st1, 1)) ∧
    (dict_get (py_lower (if c.prefLabel = "" then label else c.prefLabel))
        (ROOT_MAPPING source) = none →
      build_hierarchy_paths env label lang source st now current_path
          current_uris visited_uris depth max_depth
        = (([join_path
              (normalize_label (if c.prefLabel = "" then label else c.prefLabel)
                :: current_path)], true,
            build_uri_map
              (normalize_label (if c.prefLabel = "" then label else c.prefLabel)
                :: current_path) (c.uri :: current_uris) 0),
           st1, 1)) := by
  obtain ⟨fuel, hfuel⟩ : ∃ f, max_depth - depth = f + 1 :=
    ⟨max_depth - depth - 1, by omega⟩
  unfold build_hierarchy_paths
  rw [hfuel]
  constructor
  · intro mapped hmap
    simp only [build_hierarchy_aux, hlk]
    rw [if_neg hnc]
    rw [hroot, hmap]
  · intro hmap
    simp only [build_hierarchy_aux, hlk]
    rw [if_neg hnc]
    rw [hroot, hmap]

/-- Witness for C8: the `Plant products` root one level above a
`vegetables` segment maps to `food`, and the uri_map omits the synthetic
root key. -/
theorem root_mapping_replaces_first_segment_witness :
    build_hierarchy_paths env_timeout "plant products" "en" "agrovoc"
        state_with_plant_products 0 ["vegetables"] ["http://x/veg"] [] 1 15
      = ((["food/vegetables"], true, [("food/vegetables", "http://x/veg")]),
         state_with_plant_products, 1) := by
  have h := (root_mapping_replaces_first_segment env_timeout "plant products"
      "en" "agrovoc" state_with_plant_products 0 ["vegetables"]
      ["http://x/veg"] [] 1 15 plant_products_record
      state_with_plant_products 0 (by decide) (by decide) (by decide)
      (by decide)).1 "food" (by decide)
  rw [h]
  rfl

/-- A fold whose step leaves the accumulator unchanged on every list element
returns its initial accumulator. -/
theorem foldl_fixed_of_skip {α β : Type} (f : α → β → α) (l : List β)
    (init : α) (h : ∀ b ∈ l, ∀ a, f a b = a) : l.foldl f init = init := by
  induction l generalizing init with
  | nil => rfl
  | cons b bs ih =>
    rw [List.foldl_cons, h b (by simp)]
    exact ih init (fun x hx a => h x (by simp [hx]) a)

/-- C10: broader entries whose label is empty or missing are skipped without
any recursive call, so a concept all of whose broader entries have empty
labels takes the partial-path branch: one path from the accumulated
segments, `found = True` iff its URI is non-empty, a uri_map built from
index 0, and exactly one `lookup_concept` invocation in the whole walk. -/
theorem empty_broader_labels_single_path (env : UpstreamEnv)
    (label lang source : String) (st : CacheState) (now : Int)
    (current_path current_uris visited_uris : List String)
    (depth max_depth : Nat) (c : ConceptRecord) (st1 : CacheState) (n : Nat)
    (hdepth : depth < max_depth)
    (hlk : lookup_concept env label lang source st now = (some c, st1, n))
    (hnc : ¬ (c.uri ≠ "" ∧ c.uri ∈ visited_uris))
    (hne : c.broader ≠ [])
    (hlabels : ∀ bi ∈ c.broader, broader_item_label bi = "") :
    build_hierarchy_paths env label lang source st now current_path
        current_uris visited_uris depth max_depth
      = (([join_path
            (normalize_label (if c.prefLabel = "" then label else c.prefLabel)
              :: current_path)],
          c.uri != "",
          build_uri_map
            (normalize_label (if c.prefLabel = "" then label else c.prefLabel)
              :: current_path) (c.uri :: current_uris) 0),
         st1, 1) := by
  obtain ⟨fuel, hfuel⟩ : ∃ f, max_depth - depth = f + 1 :=
    ⟨max_depth - depth - 1, by omega⟩
  unfold build_hierarchy_paths
  rw [hfuel]
  simp only [build_hierarchy_aux, hlk]
  rw [if_neg hnc]
  cases hb : c.broader with
  | nil => exact absurd hb hne
  | cons b bs =>
    rw [hb] at hlabels
    have hstep : ∀ bi ∈ b :: bs,
        ∀ a : (List String × List (String × String)) × CacheState × Nat,
        hierarchy_step (fun l s => build_hierarchy_aux env lang source now
          fuel l
          (normalize_label (if c.prefLabel = "" then label else c.prefLabel)
            :: current_path)
          (c.uri :: current_uris)
          (if c.uri ≠ "" then c.uri :: visited_uris else visited_uris) s)
          a bi = a := by
      intro bi hbi a
      unfold hierarchy_step
      rw [if_pos (hlabels bi hbi)]
    dsimp only
    rw [foldl_fixed_of_skip _ (b :: bs) (([], []), st1, 0) hstep]
    rfl

/-- Witness for C10: a cached concept whose two broader entries (one dict,
one plain string) both have empty labels emits a single partial path. -/
theorem empty_broader_labels_single_path_witness :
    build_hierarchy_paths env_timeout "orphan" "en" "agrovoc"
        state_with_orphan 0 [] [] [] 0 15
      = ((["orphan_thing"], true, [("orphan_thing", "http://x/orphan")]),
         state_with_orphan, 1) := by
  have h := empty_broader_labels_single_path env_timeout "orphan" "en"
    "agrovoc" state_with_orphan 0 [] [] [] 0 15 orphan_record
    state_with_orphan 0 (by decide) (by decide) (by decide) (by decide)
    (by decide)
  rw [h]
  rfl

end Tingbok
